import Mathlib

/-!
Shallow embedding of the Flood-Risk-Demo metric/risk pipeline
(`metrics.py`, `risk_states.py`, `data_loader.py`, `main.py`).

Real-valued pandas/numpy arithmetic is modelled over `ℚ`; all constants in
the source are decimal literals that are exactly representable.  Pandas
frames are modelled as Lean lists (a daily frame is a list of rows in
chronological index order); a possibly-null cell is an `Option`.
-/

namespace FloodRisk

/-! ### Constants (metrics.py, module level) -/

def BASELINE_FLOOD : ℚ := 30
def SATURATION_THRESHOLD : ℚ := 4/5
def HIGH_RAIN_DAILY_CFL : ℚ := 60
def SATURATED_DAILY_PSE : ℚ := 4

/-! ### Hourly records and derived fields (metrics.py `compute_efd`,
`compute_all_metrics` hourly part) -/

structure HourlyRow where
  rainfall_mm : ℚ
  soil_moisture : ℚ
  river_discharge_m3s : ℚ
deriving Repr, DecidableEq

/-- `compute_efd`, per row:
`EFD = rainfall_mm + 50.0 * soil_moisture + 0.001 * river_discharge_m3s`. -/
def compute_efd (r : HourlyRow) : ℚ :=
  r.rainfall_mm + 50 * r.soil_moisture + (1/1000) * r.river_discharge_m3s

/-- `CFL_hour = np.maximum(EFD - BASELINE_FLOOD, 0.0)`, per row. -/
def cflHour (r : HourlyRow) : ℚ := max (compute_efd r - BASELINE_FLOOD) 0

/-- `PSe_hour = np.maximum(soil_moisture - SATURATION_THRESHOLD, 0.0)`, per row. -/
def pseHour (r : HourlyRow) : ℚ := max (r.soil_moisture - SATURATION_THRESHOLD) 0

/-- A row of the enriched hourly frame returned by `compute_all_metrics`. -/
structure EnrichedRow where
  base : HourlyRow
  EFD : ℚ
  CFL_hour : ℚ
  PSe_hour : ℚ
deriving Repr, DecidableEq

/-- The hourly part of `compute_all_metrics`: append `EFD`, `CFL_hour`,
`PSe_hour` columns to the hourly frame. -/
def enrichHourly (rows : List HourlyRow) : List EnrichedRow :=
  rows.map (fun r =>
    { base := r
      EFD := compute_efd r
      CFL_hour := max (compute_efd r - BASELINE_FLOOD) 0
      PSe_hour := max (r.soil_moisture - SATURATION_THRESHOLD) 0 })

/-! ### Streak tracker (metrics.py `_running_streak`)

The source loops over the boolean array keeping the previous entry of the
output array: `streak[i] = streak[i-1] + 1 if vals[i] else 0`, with
`streak[-1]` read as `0` for `i = 0` (the code special-cases `i == 0` to `1`
when `vals[0]`).  We model the loop with the carried previous value. -/

def streakStep (prev : Nat) (b : Bool) : Nat := if b then prev + 1 else 0

def runningStreakFrom (prev : Nat) : List Bool → List Nat
  | [] => []
  | b :: bs => streakStep prev b :: runningStreakFrom (streakStep prev b) bs

/-- `_running_streak` on a boolean series. -/
def runningStreak (bs : List Bool) : List Nat := runningStreakFrom 0 bs

/-! Basic facts about the streak tracker. -/

theorem runningStreakFrom_length (prev : Nat) (bs : List Bool) :
    (runningStreakFrom prev bs).length = bs.length := by
  induction bs generalizing prev with
  | nil => rfl
  | cons b bs ih => simp [runningStreakFrom, ih]

theorem runningStreak_length (bs : List Bool) :
    (runningStreak bs).length = bs.length :=
  runningStreakFrom_length 0 bs

theorem runningStreakFrom_getD_zero (prev : Nat) (b : Bool) (bs : List Bool) :
    (runningStreakFrom prev (b :: bs)).getD 0 0 = streakStep prev b := by
  simp [runningStreakFrom]

theorem runningStreakFrom_getD_succ (bs : List Bool) :
    ∀ (prev i : Nat), i + 1 < bs.length →
      (runningStreakFrom prev bs).getD (i + 1) 0 =
        (if bs.getD (i + 1) false then (runningStreakFrom prev bs).getD i 0 + 1 else 0) := by
  induction bs with
  | nil => intro prev i h; simp at h
  | cons b bs ih =>
    intro prev i h
    cases i with
    | zero =>
      cases bs with
      | nil => simp at h
      | cons b' bs' =>
        simp [runningStreakFrom, streakStep]
    | succ j =>
      have hlt : j + 1 < bs.length := by
        simpa [List.length_cons] using Nat.lt_of_succ_lt_succ h
      have := ih (streakStep prev b) j hlt
      simpa [runningStreakFrom] using this

/-! ### Risk state machine (risk_states.py `assign_risk_states`)

A row of the daily frame as consumed by `assign_risk_states`: the three
columns it reads, each cell possibly null (`fillna` defaults them). -/

structure DailyRiskRow where
  daily_CFL : Option ℚ
  daily_PSe : Option ℚ
  consecutive_compound_cycles : Option ℤ
deriving Repr, DecidableEq

def STABLE_CFL_MAX : ℚ := 80
def STABLE_PSE_MAX : ℚ := 4
def STABLE_STREAK_MAX : ℤ := 2
def FAILURE_CFL_MIN : ℚ := 160
def FAILURE_PSE_MIN : ℚ := 8
def FAILURE_STREAK_MIN : ℤ := 4

inductive RiskState where
  | Stable
  | Straining
  | Failure
deriving Repr, DecidableEq

/-- `straining_mask` of `assign_risk_states`, per row. -/
def strainingMask (cfl pse : ℚ) (streak : ℤ) : Bool :=
  (STABLE_CFL_MAX ≤ cfl) || (STABLE_PSE_MAX ≤ pse) || (STABLE_STREAK_MAX ≤ streak)

/-- `failure_mask` of `assign_risk_states`, per row. -/
def failureMask (cfl pse : ℚ) (streak : ℤ) : Bool :=
  (FAILURE_CFL_MIN ≤ cfl) || (FAILURE_PSE_MIN ≤ pse) || (FAILURE_STREAK_MIN ≤ streak)

/-- Per-row `risk_state`: the source fills the state array with `Stable`,
overwrites the straining mask with `Straining`, then overwrites the failure
mask with `Failure` ("failure overwrites straining"). -/
def riskState (r : DailyRiskRow) : RiskState :=
  let cfl := r.daily_CFL.getD 0
  let pse := r.daily_PSe.getD 0
  let streak := r.consecutive_compound_cycles.getD 0
  let s0 := RiskState.Stable
  let s1 := if strainingMask cfl pse streak then RiskState.Straining else s0
  let s2 := if failureMask cfl pse streak then RiskState.Failure else s1
  s2

/-- Per-row `risk_multiplier = 1.0 + cfl/80.0 + pse/4.0 + streak * 0.5`
(after `fillna`). -/
def riskMultiplier (r : DailyRiskRow) : ℚ :=
  let cfl := r.daily_CFL.getD 0
  let pse := r.daily_PSe.getD 0
  let streak := r.consecutive_compound_cycles.getD 0
  1 + cfl / 80 + pse / 4 + (streak : ℚ) * (1/2)

/-- A row of the frame returned by `assign_risk_states`: the input row with
the two appended columns. -/
structure AssignedRow where
  row : DailyRiskRow
  risk_state : RiskState
  risk_multiplier : ℚ
deriving Repr, DecidableEq

/-- `assign_risk_states`: append `risk_state` and `risk_multiplier` columns
to the daily frame (vectorised in the source; element-wise here). -/
def assign_risk_states (daily : List DailyRiskRow) : List AssignedRow :=
  daily.map (fun r => { row := r, risk_state := riskState r, risk_multiplier := riskMultiplier r })

/-! ### Daily aggregation (metrics.py `compute_cfl`, `compute_pse`)

`resample("D")` partitions the hourly index into calendar days covering the
span of the input; we model the hourly frame already grouped by day, as a
list of (possibly empty) per-day row lists in chronological order.  An
empty input frame resamples to an empty daily frame (the empty group list).
Day sums over an empty day are `0.0`; a day max over an empty day is `NaN`,
modelled as `none`. -/

/-- `cumsum` of a pandas column: running totals. -/
def cumsumFrom (acc : ℚ) : List ℚ → List ℚ
  | [] => []
  | x :: xs => (acc + x) :: cumsumFrom (acc + x) xs

def cumsum (xs : List ℚ) : List ℚ := cumsumFrom 0 xs

/-- `resample("D").max()` of a per-day group (`none` = NaN on an empty day). -/
def maxOpt : List ℚ → Option ℚ
  | [] => none
  | x :: xs => some (xs.foldl max x)

/-- `daily_CFL` column: per-day sum of `CFL_hour` (`compute_cfl`). -/
def daily_CFL_col (days : List (List HourlyRow)) : List ℚ :=
  days.map (fun rows => (rows.map cflHour).sum)

/-- `cumulative_CFL` column (`compute_cfl`). -/
def cumulative_CFL_col (days : List (List HourlyRow)) : List ℚ :=
  cumsum (daily_CFL_col days)

/-- `daily_PSe` column: per-day sum of `PSe_hour` (`compute_pse`). -/
def daily_PSe_col (days : List (List HourlyRow)) : List ℚ :=
  days.map (fun rows => (rows.map pseHour).sum)

/-- `cumulative_PSe` column (`compute_pse`). -/
def cumulative_PSe_col (days : List (List HourlyRow)) : List ℚ :=
  cumsum (daily_PSe_col days)

/-- `max_sm_day` column (`compute_pse`). -/
def max_sm_col (days : List (List HourlyRow)) : List (Option ℚ) :=
  days.map (fun rows => maxOpt (rows.map (fun r => r.soil_moisture)))

/-- `no_drying_day = max_sm_day > SATURATION_THRESHOLD`; `NaN > x` is false. -/
def no_drying_col (days : List (List HourlyRow)) : List Bool :=
  (max_sm_col days).map (fun o =>
    match o with
    | some v => decide (SATURATION_THRESHOLD < v)
    | none => false)

/-! ### Compound classifier (metrics.py `compute_compound`)

`compute_compound` takes the two daily frames as produced by `compute_cfl`
and `compute_pse`; we model each as a keyed series `List (Nat × ℚ)` (day
key, value), in index order.  The result frame is built on
`daily_cfl.index` (`pd.DataFrame(index=daily_cfl.index)`); the assignment
`comp["saturated_day"] = daily_pse["daily_PSe"] > 4.0` aligns the pse-keyed
boolean series onto that index, leaving `NaN` (here `none`) on days absent
from the PSe series.  Pandas `&` on an object column treats `NaN` as false;
Python `if vals[i]` inside `_running_streak` treats a `NaN` cell as truthy. -/

def lookupDay (xs : List (Nat × ℚ)) (d : Nat) : Option ℚ :=
  (xs.find? (fun p => p.1 == d)).map Prod.snd

structure CompRow where
  day : Nat
  high_rain_day : Bool
  saturated_day : Option Bool
  compound : Bool
  consecutive_high_rain_days : Nat
  consecutive_saturated_days : Nat
  consecutive_compound_cycles : Nat
deriving Repr, DecidableEq, Inhabited

/-- `compute_compound` on the two keyed daily series. -/
def compute_compound (daily_cfl daily_pse : List (Nat × ℚ)) : List CompRow :=
  let hr : List Bool := daily_cfl.map (fun p => decide (HIGH_RAIN_DAILY_CFL < p.2))
  let sat : List (Option Bool) :=
    daily_cfl.map (fun p => (lookupDay daily_pse p.1).map (fun v => decide (SATURATED_DAILY_PSE < v)))
  let comp : List Bool := List.zipWith (fun a b => a && b.getD false) hr sat
  let shr := runningStreak hr
  let ssat := runningStreak (sat.map (fun o => o.getD true))
  let scomp := runningStreak comp
  (List.range daily_cfl.length).map (fun i =>
    { day := (daily_cfl.getD i (0, 0)).1
      high_rain_day := hr.getD i false
      saturated_day := sat.getD i none
      compound := comp.getD i false
      consecutive_high_rain_days := shr.getD i 0
      consecutive_saturated_days := ssat.getD i 0
      consecutive_compound_cycles := scomp.getD i 0 })

/-! ### Full daily table (metrics.py `compute_all_metrics`)

Inside the pipeline `compute_cfl` and `compute_pse` resample the same
hourly index, so both daily frames carry the identical day index; the
final `.join(..., how="outer")` therefore merges row-for-row. -/

structure DailyRecord where
  daily_CFL : ℚ
  cumulative_CFL : ℚ
  daily_PSe : ℚ
  cumulative_PSe : ℚ
  max_sm_day : Option ℚ
  no_drying_day : Bool
  consecutive_no_drying_days : Nat
  high_rain_day : Bool
  saturated_day : Option Bool
  compound : Bool
  consecutive_high_rain_days : Nat
  consecutive_saturated_days : Nat
  consecutive_compound_cycles : Nat
deriving Repr, DecidableEq, Inhabited

/-- The merged daily frame of `compute_all_metrics` (keys are day positions). -/
def dailyTable (days : List (List HourlyRow)) : List DailyRecord :=
  let dcfl := daily_CFL_col days
  let ccfl := cumulative_CFL_col days
  let dpse := daily_PSe_col days
  let cpse := cumulative_PSe_col days
  let msm := max_sm_col days
  let nod := no_drying_col days
  let snod := runningStreak nod
  let keys := List.range days.length
  let comp := compute_compound (keys.zip dcfl) (keys.zip dpse)
  keys.map (fun i =>
    { daily_CFL := dcfl.getD i 0
      cumulative_CFL := ccfl.getD i 0
      daily_PSe := dpse.getD i 0
      cumulative_PSe := cpse.getD i 0
      max_sm_day := msm.getD i none
      no_drying_day := nod.getD i false
      consecutive_no_drying_days := snod.getD i 0
      high_rain_day := (comp.getD i default).high_rain_day
      saturated_day := (comp.getD i default).saturated_day
      compound := (comp.getD i default).compound
      consecutive_high_rain_days := (comp.getD i default).consecutive_high_rain_days
      consecutive_saturated_days := (comp.getD i default).consecutive_saturated_days
      consecutive_compound_cycles := (comp.getD i default).consecutive_compound_cycles })

/-- `compute_all_metrics`: the enriched hourly frame and the merged daily
frame.  Total: after validation the computation cannot raise. -/
def compute_all_metrics (days : List (List HourlyRow)) :
    List EnrichedRow × List DailyRecord :=
  (enrichHourly days.flatten, dailyTable days)

/-! ### Loader (data_loader.py `load_csv`)

We model the parsed CSV as its column-name list plus the timestamp column
(the only row data load_csv's control flow depends on).  After the
column check, `pd.to_numeric(..., errors="coerce")` and `.clip` never
raise, and the forward/backward fill never raises; the function then
`sort_values("timestamp")` and indexes by timestamp.  Its final log line
reads `df.index[0].date()` and `df.index[-1].date()`, which raises
`IndexError` when the frame has zero rows. -/

def REQUIRED_COLS : List String :=
  ["timestamp", "rainfall_mm", "soil_moisture", "river_discharge_m3s"]

structure CsvTable where
  columns : List String
  timestamps : List Int
deriving Repr, DecidableEq

structure LoadedFrame where
  timestamps : List Int
deriving Repr, DecidableEq

/-- `load_csv` (after the file-existence check): validate required columns,
then coerce/clip (total), then sort by timestamp and set the index; the
closing log line indexes `df.index[0]` / `df.index[-1]`, raising
`IndexError` on a zero-row frame. -/
def load_csv (t : CsvTable) : Except String LoadedFrame :=
  let missing := REQUIRED_COLS.filter (fun c => decide (c ∉ t.columns))
  if missing ≠ [] then
    Except.error "Missing required columns"
  else
    let sorted := List.insertionSort (· ≤ ·) t.timestamps
    if sorted = [] then
      Except.error "IndexError: index 0 is out of bounds"
    else
      Except.ok { timestamps := sorted }

/-! ### Batch driver (main.py `main` / `run_dataset`)

`main` iterates `run_dataset` over the selected datasets with no exception
handling; `run_dataset` calls `load_csv` first and the rest of the pipeline
(metrics, risk states, summary over the pipeline's own daily frame) is
total.  The loop either completes, or the first uncaught load error
terminates it.  The first component below collects the outputs of the
datasets fully processed before termination; the second is the uncaught
error, if any. -/

def mainBatch : List CsvTable → List LoadedFrame → List LoadedFrame × Option String
  | [], acc => (acc, none)
  | t :: ts, acc =>
    match load_csv t with
    | Except.error e => (acc, some e)
    | Except.ok f => mainBatch ts (acc ++ [f])

/-! ### Summary projection (risk_states.py `summary_table`)

Modelled at column granularity: the claim under test concerns which
columns are selected and which accesses raise; cell values and display
rounding do not enter it.  `tbl[c]` on a missing column raises `KeyError`;
the three round assignments read `tbl["daily_CFL"]`, `tbl["daily_PSe"]`,
`tbl["risk_multiplier"]` unconditionally, in that order. -/

def SUMMARY_COLS : List String :=
  ["daily_CFL", "daily_PSe", "compound", "risk_state", "risk_multiplier"]

structure SummaryFrame where
  columns : List String
deriving Repr, DecidableEq

def summary_table (daily : SummaryFrame) : Except String SummaryFrame :=
  let present := SUMMARY_COLS.filter (fun c => decide (c ∈ daily.columns))
  let tbl : SummaryFrame := ⟨present⟩
  if "daily_CFL" ∉ tbl.columns then Except.error "KeyError: daily_CFL"
  else if "daily_PSe" ∉ tbl.columns then Except.error "KeyError: daily_PSe"
  else if "risk_multiplier" ∉ tbl.columns then Except.error "KeyError: risk_multiplier"
  else Except.ok tbl

/-! ### Helper lemmas -/

theorem cumsumFrom_length (acc : ℚ) (xs : List ℚ) :
    (cumsumFrom acc xs).length = xs.length := by
  induction xs generalizing acc with
  | nil => rfl
  | cons x xs ih => simp [cumsumFrom, ih]

theorem cumsum_length (xs : List ℚ) : (cumsum xs).length = xs.length :=
  cumsumFrom_length 0 xs

theorem cumsumFrom_getD_succ (xs : List ℚ) :
    ∀ (acc : ℚ) (i : Nat), i + 1 < xs.length →
      (cumsumFrom acc xs).getD (i + 1) 0 =
        (cumsumFrom acc xs).getD i 0 + xs.getD (i + 1) 0 := by
  induction xs with
  | nil => intro acc i h; simp at h
  | cons x xs ih =>
    intro acc i h
    cases i with
    | zero =>
      cases xs with
      | nil => simp at h
      | cons y ys => simp [cumsumFrom]
    | succ j =>
      have hlt : j + 1 < xs.length := by
        simpa [List.length_cons] using Nat.lt_of_succ_lt_succ h
      have := ih (acc + x) j hlt
      simpa [cumsumFrom] using this

theorem cumsum_getD_mono (xs : List ℚ) (hnn : ∀ x ∈ xs, 0 ≤ x) :
    ∀ i j, i ≤ j → j < xs.length →
      (cumsum xs).getD i 0 ≤ (cumsum xs).getD j 0 := by
  intro i j hij hj
  induction j with
  | zero =>
    have : i = 0 := Nat.le_zero.mp hij
    subst this; exact le_refl _
  | succ j ihj =>
    rcases Nat.lt_or_ge i (j + 1) with hlt | hge
    · have hij' : i ≤ j := Nat.lt_succ_iff.mp hlt
      have hjlen : j < xs.length := Nat.lt_of_succ_lt hj
      have h1 := ihj hij' hjlen
      have hx : 0 ≤ xs.getD (j + 1) 0 := by
        rw [List.getD_eq_getElem xs 0 hj]
        exact hnn _ (List.getElem_mem hj)
      have hstep : (cumsum xs).getD j 0 ≤ (cumsum xs).getD (j + 1) 0 := by
        rw [cumsum, cumsumFrom_getD_succ xs 0 j hj]
        linarith
      exact le_trans h1 hstep
    · have : i = j + 1 := Nat.le_antisymm hij hge
      subst this; exact le_refl _

theorem getD_range_map {α : Type} (f : Nat → α) (n i : Nat) (h : i < n) (d : α) :
    ((List.range n).map f).getD i d = f i := by
  rw [List.getD_eq_getElem?_getD, List.getElem?_map, List.getElem?_range h]
  rfl

theorem getD_map_of_lt {α β : Type} (f : α → β) (l : List α) (i : Nat)
    (h : i < l.length) (d : β) (d' : α) :
    (l.map f).getD i d = f (l.getD i d') := by
  rw [List.getD_eq_getElem?_getD, List.getElem?_map, List.getElem?_eq_getElem h,
    List.getD_eq_getElem l d' h]
  rfl

theorem dailyTable_length (days : List (List HourlyRow)) :
    (dailyTable days).length = days.length := by
  simp [dailyTable]

theorem dailyTable_getD_cumulative (days : List (List HourlyRow)) (i : Nat)
    (h : i < days.length) :
    ((dailyTable days).getD i default).cumulative_CFL =
      (cumulative_CFL_col days).getD i 0 ∧
    ((dailyTable days).getD i default).cumulative_PSe =
      (cumulative_PSe_col days).getD i 0 := by
  simp only [dailyTable]
  rw [getD_range_map _ _ _ h]
  exact ⟨rfl, rfl⟩

/-! ## Claim theorems -/

/-- C1: for every row of the daily table, `assign_risk_states` (with null
`daily_CFL`/`daily_PSe` read as `0.0` and a null compound streak as `0`)
assigns `Failure` when `daily_CFL ≥ 160` or `daily_PSe ≥ 8` or the streak
is `≥ 4`; otherwise `Straining` when `daily_CFL ≥ 80` or `daily_PSe ≥ 4`
or the streak is `≥ 2`; otherwise `Stable` — Failure taking precedence —
and `daily_CFL` exactly `80.0` with the other inputs `0` classifies as
`Straining`. -/
theorem assign_risk_states_state_spec (daily : List DailyRiskRow) (a : AssignedRow)
    (ha : a ∈ assign_risk_states daily) :
    a.risk_state =
      (if 160 ≤ a.row.daily_CFL.getD 0 ∨ 8 ≤ a.row.daily_PSe.getD 0 ∨
          4 ≤ a.row.consecutive_compound_cycles.getD 0 then RiskState.Failure
       else if 80 ≤ a.row.daily_CFL.getD 0 ∨ 4 ≤ a.row.daily_PSe.getD 0 ∨
          2 ≤ a.row.consecutive_compound_cycles.getD 0 then RiskState.Straining
       else RiskState.Stable) ∧
    riskState ⟨some 80, some 0, some 0⟩ = RiskState.Straining := by
  refine ⟨?_, by decide⟩
  obtain ⟨r, _, rfl⟩ := List.mem_map.mp ha
  show riskState r = _
  simp only [riskState, strainingMask, failureMask, STABLE_CFL_MAX, STABLE_PSE_MAX,
    STABLE_STREAK_MAX, FAILURE_CFL_MIN, FAILURE_PSE_MIN, FAILURE_STREAK_MIN,
    Bool.or_eq_true, decide_eq_true_eq, or_assoc]

/-- Witness for C1 at a concrete classified day. -/
theorem assign_risk_states_state_spec_witness :
    riskState ⟨some 200, some 0, some 0⟩ = RiskState.Failure := by
  have h := assign_risk_states_state_spec [⟨some 200, some 0, some 0⟩]
    ⟨⟨some 200, some 0, some 0⟩, riskState ⟨some 200, some 0, some 0⟩,
      riskMultiplier ⟨some 200, some 0, some 0⟩⟩ (by simp [assign_risk_states])
  have h1 := h.1
  norm_num at h1
  exact h1

/-- C2: `_running_streak` is length- and order-preserving, with
`streak[0] = 1` iff `input[0]` (else `0`) and, for `i > 0`,
`streak[i] = streak[i-1] + 1` when `input[i]` and `0` otherwise; the input
`[T,T,F,T,T,T]` yields `[1,2,0,1,2,3]`. -/
theorem running_streak_spec (bs : List Bool) :
    (runningStreak bs).length = bs.length ∧
    (0 < bs.length → (runningStreak bs).getD 0 0 = (if bs.getD 0 false then 1 else 0)) ∧
    (∀ i, i + 1 < bs.length →
      (runningStreak bs).getD (i + 1) 0 =
        (if bs.getD (i + 1) false then (runningStreak bs).getD i 0 + 1 else 0)) ∧
    runningStreak [true, true, false, true, true, true] = [1, 2, 0, 1, 2, 3] := by
  refine ⟨runningStreak_length bs, ?_, ?_, rfl⟩
  · intro h
    cases bs with
    | nil => simp at h
    | cons b bs' => simp [runningStreak, runningStreakFrom, streakStep]
  · intro i h
    exact runningStreakFrom_getD_succ bs 0 i h

/-- Witness for C2 on the spec's example sequence. -/
theorem running_streak_spec_witness :
    runningStreak [true, true, false, true, true, true] = [1, 2, 0, 1, 2, 3] ∧
    (runningStreak [true, true, false, true, true, true]).getD 2 0 = 0 := by
  have h := running_streak_spec [true, true, false, true, true, true]
  refine ⟨h.2.2.2, ?_⟩
  have h2 := h.2.2.1 1 (by norm_num)
  simpa using h2

/-- C3: for every row of the daily table, `assign_risk_states` sets
`risk_multiplier = 1.0 + daily_CFL/80.0 + daily_PSe/4.0 + streak * 0.5`
(nulls defaulted to 0), and `daily_CFL = 80, daily_PSe = 4, streak = 2`
yields exactly `4.0`. -/
theorem assign_risk_states_multiplier_spec (daily : List DailyRiskRow) (a : AssignedRow)
    (ha : a ∈ assign_risk_states daily) :
    a.risk_multiplier =
      1 + a.row.daily_CFL.getD 0 / 80 + a.row.daily_PSe.getD 0 / 4 +
        (a.row.consecutive_compound_cycles.getD 0 : ℚ) * (1/2) ∧
    riskMultiplier ⟨some 80, some 4, some 2⟩ = 4 := by
  refine ⟨?_, by norm_num [riskMultiplier]⟩
  obtain ⟨r, _, rfl⟩ := List.mem_map.mp ha
  rfl

/-- Witness for C3 at the spec's exact-value example. -/
theorem assign_risk_states_multiplier_spec_witness :
    riskMultiplier ⟨some 80, some 4, some 2⟩ = 4 := by
  have h := assign_risk_states_multiplier_spec [⟨some 80, some 4, some 2⟩]
    ⟨⟨some 80, some 4, some 2⟩, riskState ⟨some 80, some 4, some 2⟩,
      riskMultiplier ⟨some 80, some 4, some 2⟩⟩ (by simp [assign_risk_states])
  exact h.2

/-- C5: every enriched hourly row satisfies
`EFD = rainfall_mm + 50.0 * soil_moisture + 0.001 * river_discharge_m3s`,
`CFL_hour = max(EFD - 30.0, 0)` and `PSe_hour = max(soil_moisture - 0.80, 0)`;
the derivations are total same-row functions. -/
theorem compute_all_metrics_hourly_fields (rows : List HourlyRow) (e : EnrichedRow)
    (he : e ∈ enrichHourly rows) :
    e.EFD = e.base.rainfall_mm + 50 * e.base.soil_moisture +
      (1/1000) * e.base.river_discharge_m3s ∧
    e.CFL_hour = max (e.EFD - 30) 0 ∧
    e.PSe_hour = max (e.base.soil_moisture - 4/5) 0 := by
  obtain ⟨r, _, rfl⟩ := List.mem_map.mp he
  exact ⟨rfl, rfl, rfl⟩

/-- Witness for C5 at a concrete hourly row. -/
theorem compute_all_metrics_hourly_fields_witness :
    ∃ e ∈ enrichHourly [⟨10, 9/10, 1000⟩],
      e.EFD = 56 ∧ e.CFL_hour = 26 ∧ e.PSe_hour = 1/10 := by
  have h := compute_all_metrics_hourly_fields [⟨10, 9/10, 1000⟩]
    ⟨⟨10, 9/10, 1000⟩, compute_efd ⟨10, 9/10, 1000⟩,
      max (compute_efd ⟨10, 9/10, 1000⟩ - BASELINE_FLOOD) 0,
      max ((9:ℚ)/10 - SATURATION_THRESHOLD) 0⟩ (by simp [enrichHourly])
  obtain ⟨h1, h2, h3⟩ := h
  refine ⟨⟨⟨10, 9/10, 1000⟩, compute_efd ⟨10, 9/10, 1000⟩,
      max (compute_efd ⟨10, 9/10, 1000⟩ - BASELINE_FLOOD) 0,
      max ((9:ℚ)/10 - SATURATION_THRESHOLD) 0⟩, by simp [enrichHourly], ?_, ?_, ?_⟩
  · rw [h1]; norm_num
  · rw [h2, h1]; norm_num
  · rw [h3]; norm_num

/-- C7: on an empty hourly input the metric pipeline is total (the
embedding returns, it does not fail) and every aggregate and the daily
table are empty. -/
theorem compute_all_metrics_empty :
    compute_all_metrics [] = ([], []) ∧
    daily_CFL_col [] = [] ∧ cumulative_CFL_col [] = [] ∧
    daily_PSe_col [] = [] ∧ cumulative_PSe_col [] = [] ∧
    dailyTable [] = [] :=
  ⟨rfl, rfl, rfl, rfl, rfl, rfl⟩

/-- C6: the `cumulative_CFL` and `cumulative_PSe` columns of the daily
table are monotonically non-decreasing across the chronologically ordered
days, every day's contribution being a sum of hourly values clipped at
`0`. -/
theorem dailyTable_cumulative_monotone (days : List (List HourlyRow)) (i j : Nat)
    (hij : i ≤ j) (hj : j < (dailyTable days).length) :
    ((dailyTable days).getD i default).cumulative_CFL ≤
      ((dailyTable days).getD j default).cumulative_CFL ∧
    ((dailyTable days).getD i default).cumulative_PSe ≤
      ((dailyTable days).getD j default).cumulative_PSe := by
  rw [dailyTable_length] at hj
  have hi : i < days.length := lt_of_le_of_lt hij hj
  obtain ⟨hc1, hp1⟩ := dailyTable_getD_cumulative days i hi
  obtain ⟨hc2, hp2⟩ := dailyTable_getD_cumulative days j hj
  rw [hc1, hc2, hp1, hp2]
  constructor
  · refine cumsum_getD_mono (daily_CFL_col days) ?_ i j hij ?_
    · intro x hx
      obtain ⟨rows, _, rfl⟩ := List.mem_map.mp hx
      apply List.sum_nonneg
      intro y hy
      obtain ⟨r, _, rfl⟩ := List.mem_map.mp hy
      exact le_max_right _ _
    · simpa [daily_CFL_col] using hj
  · refine cumsum_getD_mono (daily_PSe_col days) ?_ i j hij ?_
    · intro x hx
      obtain ⟨rows, _, rfl⟩ := List.mem_map.mp hx
      apply List.sum_nonneg
      intro y hy
      obtain ⟨r, _, rfl⟩ := List.mem_map.mp hy
      exact le_max_right _ _
    · simpa [daily_PSe_col] using hj

/-- Witness for C6 on a concrete two-day series. -/
theorem dailyTable_cumulative_monotone_witness :
    ((dailyTable [[⟨100, 1, 0⟩], []]).getD 0 default).cumulative_CFL ≤
      ((dailyTable [[⟨100, 1, 0⟩], []]).getD 1 default).cumulative_CFL :=
  (dailyTable_cumulative_monotone [[⟨100, 1, 0⟩], []] 0 1 (by norm_num)
    (by simp [dailyTable_length])).1

theorem zipWith_getD {α β γ : Type} (g : α → β → γ) :
    ∀ (as : List α) (bs : List β) (i : Nat), i < as.length → i < bs.length →
      ∀ (d : γ) (da : α) (db : β),
        (List.zipWith g as bs).getD i d = g (as.getD i da) (bs.getD i db) := by
  intro as
  induction as with
  | nil => intro bs i h _ _ _ _; simp at h
  | cons a as ih =>
    intro bs i ha hb d da db
    cases bs with
    | nil => simp at hb
    | cons b bs =>
      cases i with
      | zero => rfl
      | succ j =>
        have ha' : j < as.length := Nat.lt_of_succ_lt_succ ha
        have hb' : j < bs.length := Nat.lt_of_succ_lt_succ hb
        simpa [List.zipWith] using ih bs j ha' hb' d da db

/-- C4 counterexample: with an empty `daily_CFL` series and a `daily_PSe`
series holding day `0` with value `10`, the claim requires the result to
cover the union day `0` (treated as `daily_CFL = 0`, `saturated_day`
true); `compute_compound` instead returns the empty frame, because its
result is built on `daily_cfl.index`, not on the union of the indices. -/
theorem compute_compound_union_counterexample :
    compute_compound [] [(0, 10)] = [] ∧
    ¬ ∃ c ∈ compute_compound [] [(0, 10)], c.day = 0 := by
  refine ⟨rfl, ?_⟩
  rintro ⟨c, hc, -⟩
  simp [compute_compound] at hc

/-- C4 corrected: `compute_compound` covers exactly the days of the
`daily_CFL` series.  On each covered day `high_rain_day` iff
`daily_CFL > 60.0` (strict); when the day also appears in the `daily_PSe`
series `saturated_day` iff `daily_PSe > 4.0` (strict) and `compound` iff
both flags hold; a day absent from the `daily_PSe` series gets a null
`saturated_day` (not a `0`-defaulted comparison).  Inside
`compute_all_metrics` the two series carry the same day index, so there
the covered days do equal the union. -/
theorem compute_compound_spec (daily_cfl daily_pse : List (Nat × ℚ)) :
    (compute_compound daily_cfl daily_pse).map (fun c => c.day) =
      daily_cfl.map Prod.fst ∧
    ∀ i, i < daily_cfl.length →
      ((compute_compound daily_cfl daily_pse).getD i default).high_rain_day =
        decide (60 < (daily_cfl.getD i (0, 0)).2) ∧
      (∀ v, lookupDay daily_pse (daily_cfl.getD i (0, 0)).1 = some v →
        ((compute_compound daily_cfl daily_pse).getD i default).saturated_day =
          some (decide (4 < v)) ∧
        ((compute_compound daily_cfl daily_pse).getD i default).compound =
          (decide (60 < (daily_cfl.getD i (0, 0)).2) && decide (4 < v))) ∧
      (lookupDay daily_pse (daily_cfl.getD i (0, 0)).1 = none →
        ((compute_compound daily_cfl daily_pse).getD i default).saturated_day = none) := by
  constructor
  · apply List.ext_getElem
    · simp [compute_compound]
    · intro i h1 h2
      have hi : i < daily_cfl.length := by simpa using h2
      simp only [compute_compound, List.getElem_map, List.getElem_range]
      rw [← List.getD_eq_getElem daily_cfl (0, 0) hi]
  · intro i hi
    have hrow : (compute_compound daily_cfl daily_pse).getD i default =
        { day := (daily_cfl.getD i (0, 0)).1
          high_rain_day := decide (HIGH_RAIN_DAILY_CFL < (daily_cfl.getD i (0, 0)).2)
          saturated_day := (lookupDay daily_pse (daily_cfl.getD i (0, 0)).1).map
            (fun v => decide (SATURATED_DAILY_PSE < v))
          compound := decide (HIGH_RAIN_DAILY_CFL < (daily_cfl.getD i (0, 0)).2) &&
            ((lookupDay daily_pse (daily_cfl.getD i (0, 0)).1).map
              (fun v => decide (SATURATED_DAILY_PSE < v))).getD false
          consecutive_high_rain_days :=
            (runningStreak (daily_cfl.map
              (fun p => decide (HIGH_RAIN_DAILY_CFL < p.2)))).getD i 0
          consecutive_saturated_days :=
            (runningStreak ((daily_cfl.map (fun p => (lookupDay daily_pse p.1).map
              (fun v => decide (SATURATED_DAILY_PSE < v)))).map
                (fun o => o.getD true))).getD i 0
          consecutive_compound_cycles :=
            (runningStreak (List.zipWith (fun a b => a && b.getD false)
              (daily_cfl.map (fun p => decide (HIGH_RAIN_DAILY_CFL < p.2)))
              (daily_cfl.map (fun p => (lookupDay daily_pse p.1).map
                (fun v => decide (SATURATED_DAILY_PSE < v)))))).getD i 0 } := by
      simp only [compute_compound]
      rw [getD_range_map _ _ _ hi]
      congr 1
      · exact getD_map_of_lt _ daily_cfl i hi false (0, 0)
      · exact getD_map_of_lt _ daily_cfl i hi none (0, 0)
      · rw [zipWith_getD _ _ _ i (by simpa using hi) (by simpa using hi)
          false false none]
        rw [getD_map_of_lt _ daily_cfl i hi false (0, 0),
          getD_map_of_lt _ daily_cfl i hi none (0, 0)]
    rw [hrow]
    refine ⟨by simp [HIGH_RAIN_DAILY_CFL], ?_, ?_⟩
    · intro v hv
      rw [hv]
      exact ⟨by simp [SATURATED_DAILY_PSE],
        by simp [HIGH_RAIN_DAILY_CFL, SATURATED_DAILY_PSE]⟩
    · intro hv
      rw [hv]
      rfl

/-- Witness for C4 (corrected) on a concrete day present in both series. -/
theorem compute_compound_spec_witness :
    ((compute_compound [(0, 70)] [(0, 10)]).getD 0 default).high_rain_day = true ∧
    ((compute_compound [(0, 70)] [(0, 10)]).getD 0 default).saturated_day = some true ∧
    ((compute_compound [(0, 70)] [(0, 10)]).getD 0 default).compound = true := by
  have h := (compute_compound_spec [(0, 70)] [(0, 10)]).2 0 (by norm_num)
  obtain ⟨h1, h2, -⟩ := h
  obtain ⟨hs, hc⟩ := h2 10 (by rfl)
  refine ⟨by rw [h1]; norm_num, by rw [hs]; norm_num, by rw [hc]; norm_num⟩

/-- C8 counterexample: a table carrying all required columns whose
timestamp index is out of order (`[2, 1]`) is accepted by `load_csv` —
it is sorted, not rejected — so the load does not fail fast on a
non-time-ordered index as the claim states. -/
theorem load_csv_unsorted_counterexample :
    load_csv ⟨REQUIRED_COLS, [2, 1]⟩ = Except.ok ⟨[1, 2]⟩ ∧
    ¬ ∃ msg, load_csv ⟨REQUIRED_COLS, [2, 1]⟩ = Except.error msg := by
  refine ⟨rfl, ?_⟩
  rintro ⟨msg, hmsg⟩
  rw [show load_csv ⟨REQUIRED_COLS, [2, 1]⟩ = Except.ok ⟨[1, 2]⟩ from rfl] at hmsg
  exact absurd hmsg (by simp)

/-- C8 corrected: `load_csv` fails fast — before any metric computation,
with no partial result — when a required column (`timestamp`,
`rainfall_mm`, `soil_moisture`, `river_discharge_m3s`) is absent; a
non-time-ordered timestamp index is not rejected: on a column-complete
table with at least one row, the rows are sorted ascending by timestamp
before indexing.  A column-complete table with zero rows also fails, at
the closing log line's `df.index[0]` (`IndexError`). -/
theorem load_csv_spec (t : CsvTable) :
    ((¬ ∀ c ∈ REQUIRED_COLS, c ∈ t.columns) →
      load_csv t = Except.error "Missing required columns") ∧
    ((∀ c ∈ REQUIRED_COLS, c ∈ t.columns) → t.timestamps ≠ [] →
      load_csv t = Except.ok ⟨List.insertionSort (· ≤ ·) t.timestamps⟩ ∧
      List.Sorted (· ≤ ·) (List.insertionSort (· ≤ ·) t.timestamps)) ∧
    ((∀ c ∈ REQUIRED_COLS, c ∈ t.columns) → t.timestamps = [] →
      load_csv t = Except.error "IndexError: index 0 is out of bounds") := by
  have hfilter : (∀ c ∈ REQUIRED_COLS, c ∈ t.columns) →
      REQUIRED_COLS.filter (fun c => decide (c ∉ t.columns)) = [] := by
    intro h
    rw [List.filter_eq_nil_iff]
    intro c hc
    simpa using h c hc
  refine ⟨?_, ?_, ?_⟩
  · intro h
    push_neg at h
    obtain ⟨c, hc, hcn⟩ := h
    have hmem : c ∈ REQUIRED_COLS.filter (fun c => decide (c ∉ t.columns)) :=
      List.mem_filter.mpr ⟨hc, by simpa using hcn⟩
    have hne : REQUIRED_COLS.filter (fun c => decide (c ∉ t.columns)) ≠ [] :=
      List.ne_nil_of_mem hmem
    simp only [load_csv]
    rw [if_pos hne]
  · intro h hrows
    have hsne : List.insertionSort (· ≤ ·) t.timestamps ≠ [] := by
      intro hs
      have hp := List.perm_insertionSort (fun a b : Int => a ≤ b) t.timestamps
      rw [hs] at hp
      exact hrows hp.symm.eq_nil
    refine ⟨?_, List.sorted_insertionSort _ _⟩
    simp only [load_csv]
    rw [if_neg (not_not.mpr (hfilter h)), if_neg hsne]
  · intro h hrows
    simp only [load_csv]
    rw [if_neg (not_not.mpr (hfilter h)), if_pos (by rw [hrows]; rfl)]

/-- Witness for C8 (corrected): a table missing the numeric columns is
rejected; a well-formed but unsorted table loads with a sorted index; a
column-complete zero-row table fails at the log line's indexing. -/
theorem load_csv_spec_witness :
    load_csv ⟨["timestamp"], []⟩ = Except.error "Missing required columns" ∧
    load_csv ⟨REQUIRED_COLS, [5, 3, 4]⟩ = Except.ok ⟨[3, 4, 5]⟩ ∧
    load_csv ⟨REQUIRED_COLS, []⟩ = Except.error "IndexError: index 0 is out of bounds" := by
  refine ⟨?_, ?_, ?_⟩
  · exact (load_csv_spec ⟨["timestamp"], []⟩).1 (by decide)
  · have h := (load_csv_spec ⟨REQUIRED_COLS, [5, 3, 4]⟩).2.1 (by decide) (by decide)
    rw [h.1]
    rfl
  · exact (load_csv_spec ⟨REQUIRED_COLS, []⟩).2.2 (by decide) rfl

/-- C9 counterexample: a batch of two datasets, the first missing its
required columns and the second well-formed.  `main`'s loop terminates
with the uncaught load error and an empty list of processed datasets —
the well-formed remaining dataset is never processed, contradicting the
claim that every remaining dataset is still processed to completion. -/
theorem mainBatch_abort_counterexample :
    mainBatch [⟨["timestamp"], []⟩, ⟨REQUIRED_COLS, [0]⟩] [] =
      ([], some "Missing required columns") := rfl

theorem mainBatch_append_error (post : List CsvTable) (d : CsvTable) (e : String)
    (hd : load_csv d = Except.error e) :
    ∀ (pre : List CsvTable), (∀ t ∈ pre, ∃ f, load_csv t = Except.ok f) →
      ∀ (acc : List LoadedFrame),
        (mainBatch (pre ++ d :: post) acc).1.length = acc.length + pre.length ∧
        (mainBatch (pre ++ d :: post) acc).2 = some e := by
  intro pre
  induction pre with
  | nil =>
    intro _ acc
    simp [mainBatch, hd]
  | cons t ts ih =>
    intro hpre acc
    obtain ⟨f, hf⟩ := hpre t (List.mem_cons_self t ts)
    have h2 := ih (fun t' ht' => hpre t' (List.mem_cons_of_mem _ ht')) (acc ++ [f])
    rw [List.cons_append]
    constructor
    · show (match load_csv t with
        | Except.error e => (acc, some e)
        | Except.ok f => mainBatch (ts ++ d :: post) (acc ++ [f])).1.length = _
      rw [hf]
      rw [h2.1]
      simp [List.length_append]
      omega
    · show (match load_csv t with
        | Except.error e => (acc, some e)
        | Except.ok f => mainBatch (ts ++ d :: post) (acc ++ [f])).2 = some e
      rw [hf]
      exact h2.2

/-- C9 corrected: a fatal load error in one dataset aborts the whole
batch run (`main`'s loop has no per-dataset error handling): exactly the
datasets before the failing one are processed, and none after it. -/
theorem mainBatch_abort_spec (pre post : List CsvTable) (d : CsvTable) (e : String)
    (hpre : ∀ t ∈ pre, ∃ f, load_csv t = Except.ok f)
    (hd : load_csv d = Except.error e) :
    (mainBatch (pre ++ d :: post) []).1.length = pre.length ∧
    (mainBatch (pre ++ d :: post) []).2 = some e := by
  have h := mainBatch_append_error post d e hd pre hpre []
  simpa using h

/-- Witness for C9 (corrected): good, bad, good — only the first dataset
is processed. -/
theorem mainBatch_abort_spec_witness :
    (mainBatch [⟨REQUIRED_COLS, [7]⟩, ⟨[], []⟩, ⟨REQUIRED_COLS, [1]⟩] []).1.length = 1 ∧
    (mainBatch [⟨REQUIRED_COLS, [7]⟩, ⟨[], []⟩, ⟨REQUIRED_COLS, [1]⟩] []).2 =
      some "Missing required columns" := by
  have h := mainBatch_abort_spec [⟨REQUIRED_COLS, [7]⟩] [⟨REQUIRED_COLS, [1]⟩]
    ⟨[], []⟩ "Missing required columns"
    (by
      intro t ht
      rw [List.mem_singleton] at ht
      subst ht
      exact ⟨⟨[7]⟩, rfl⟩)
    rfl
  exact h

/-- C10: `summary_table` filters its projection to the summary columns
actually present, yet unconditionally rounds `daily_CFL`, `daily_PSe`
and `risk_multiplier` afterwards; a daily frame missing any of the three
raises `KeyError` rather than returning a partial summary, although the
presence filter alone would have silently dropped the missing column. -/
theorem summary_table_keyerror_spec (daily : SummaryFrame)
    (h : "daily_CFL" ∉ daily.columns ∨ "daily_PSe" ∉ daily.columns ∨
      "risk_multiplier" ∉ daily.columns) :
    (∃ msg, summary_table daily = Except.error msg) ∧
    ∀ c, c ∉ daily.columns →
      c ∉ SUMMARY_COLS.filter (fun c => decide (c ∈ daily.columns)) := by
  constructor
  · simp only [summary_table]
    split_ifs with h1 h2 h3
    · exfalso
      have p1 : "daily_CFL" ∈ daily.columns := by
        simpa using (List.mem_filter.mp h1).2
      have p2 : "daily_PSe" ∈ daily.columns := by
        simpa using (List.mem_filter.mp h2).2
      have p3 : "risk_multiplier" ∈ daily.columns := by
        simpa using (List.mem_filter.mp h3).2
      rcases h with h | h | h
      · exact h p1
      · exact h p2
      · exact h p3
    · exact ⟨_, rfl⟩
    · exact ⟨_, rfl⟩
    · exact ⟨_, rfl⟩
  · intro c hc hmem
    exact hc (by simpa using (List.mem_filter.mp hmem).2)

/-- Witness for C10: a daily frame with `risk_multiplier` absent raises. -/
theorem summary_table_keyerror_spec_witness :
    ∃ msg, summary_table ⟨["daily_CFL", "daily_PSe", "compound", "risk_state"]⟩ =
      Except.error msg :=
  (summary_table_keyerror_spec ⟨["daily_CFL", "daily_PSe", "compound", "risk_state"]⟩
    (by decide)).1

end FloodRisk
